import Mathlib

/-!
Verification of the ProjectCrew-AI routing core.

Shallow embedding of the complexity scorer (`src/services/complexityScorer.js`),
the reasoning analyzer (`src/services/reasoningAnalyzer.js`) and the
orchestrator/router (`src/services/aiOrchestrator.js`).

Modelling conventions:
  * JS strings are Lean `String`s; lengths are counted in characters
    (all concrete inputs used below are ASCII, where JS `length` agrees).
  * JS numbers are modelled exactly: integer-valued quantities as `Nat`/`Int`,
    the weighted complexity sum and the code ratio as `Rat` (no weighted sum
    reachable from the buckets ever sits within 0.25 of a rounding boundary,
    so floating-point error cannot change `Math.round`; division is modelled
    with an explicit NaN/Infinity-carrying type `JSNum`).
  * A task is either a plain string or a structured object; optional JS fields
    are `Option`s, and the boolean-only fields `references`/`history` are
    modelled as `Bool` (false = absent, which is truthiness-equivalent).
  * Provider invocations are external network calls; they are modelled as an
    oracle `ProviderCall → Except ε α` giving, for the task/context of the
    current call, the outcome each provider would return.  Routing functions
    additionally return the list of provider invocations they perform.
-/

namespace ProjectCrew

/-! ### JS string primitives -/

/-- Lower-case every character, as JS `String.prototype.toLowerCase` does on
the ASCII inputs considered here. -/
def strToLower (s : String) : String := ⟨s.data.map Char.toLower⟩

/-- Substring containment on character lists: JS `String.prototype.includes`. -/
def containsSub (needle : List Char) : List Char → Bool
  | [] => needle.isEmpty
  | c :: t => needle.isPrefixOf (c :: t) || containsSub needle t

/-- JS `haystack.includes(needle)`. -/
def strIncludes (haystack needle : String) : Bool :=
  containsSub needle.data haystack.data

/-- Word characters for the regex `\b` boundary: `[A-Za-z0-9_]`. -/
def isWordChar (c : Char) : Bool := c.isAlphanum || c = '_'

/-- The JS regex class `\s`, restricted to the ASCII whitespace characters. -/
def isJsWhitespace (c : Char) : Bool :=
  c = ' ' || c = '\t' || c = '\n' || c = '\r' || c = '\x0b' || c = '\x0c'

/-- One hexadecimal digit. -/
def hexDigit (n : Nat) : Char :=
  if n < 10 then Char.ofNat ('0'.toNat + n) else Char.ofNat ('a'.toNat + (n - 10))

/-- Four-digit hexadecimal rendering, for JSON `\uXXXX` escapes. -/
def hex4 (n : Nat) : String :=
  ⟨[hexDigit (n / 4096 % 16), hexDigit (n / 256 % 16), hexDigit (n / 16 % 16), hexDigit (n % 16)]⟩

/-- JSON escaping of one character, as `JSON.stringify` performs it. -/
def escapeJSONChar (c : Char) : String :=
  if c = '"' then "\\\""
  else if c = '\\' then "\\\\"
  else if c = '\n' then "\\n"
  else if c = '\r' then "\\r"
  else if c = '\t' then "\\t"
  else if c = '\x08' then "\\b"
  else if c = '\x0c' then "\\f"
  else if c.toNat < 32 then "\\u" ++ hex4 c.toNat
  else String.singleton c

/-- JSON string literal for `s`, as `JSON.stringify(s)`. -/
def jsonQuote (s : String) : String :=
  "\"" ++ String.join (s.data.map escapeJSONChar) ++ "\""

/-! ### The Task data model

`Task` covers the shapes the routing core consumes: a plain string, or an
object with the optional fields read by `extractTextContent`,
`_extractTaskText`, `scoreContextDependency` and `processTask`
(`content`, `prompt`, `text`, `query`, `context`, `references`, `history`,
`action`, `id`, `title`, `complexity`). -/

/-- One typed content part `{type, text}` of a structured task content array. -/
structure ContentPart where
  type : String
  text : String
deriving DecidableEq, Repr

/-- The `content` field: a string or an array of typed parts. -/
inductive TaskContent where
  | str (s : String)
  | parts (l : List ContentPart)
deriving DecidableEq, Repr

/-- A structured task object.  `references` and `history` only ever feed a
truthiness test in the source, so they are modelled as booleans. -/
structure TaskObj where
  content : Option TaskContent
  prompt : Option String
  text : Option String
  query : Option String
  context : Option (List (String × String))
  references : Bool
  history : Bool
  action : Option String
  id : Option String
  title : Option String
  complexity : Option Int
deriving DecidableEq, Repr

/-- A task value: a plain string or a structured object. -/
inductive Task where
  | str (s : String)
  | obj (o : TaskObj)
deriving DecidableEq, Repr

/-- A task object with every optional field absent. -/
def emptyObj : TaskObj :=
  ⟨none, none, none, none, none, false, false, none, none, none, none⟩

/-- JS truthiness of an optional string field (absent and `""` are falsy). -/
def optTruthy : Option String → Bool
  | some s => s ≠ ""
  | none => false

/-- Truthiness of the `content` field (an array is always truthy, a string is
truthy iff non-empty). -/
def contentTruthy : Option TaskContent → Bool
  | some (.str s) => s ≠ ""
  | some (.parts _) => true
  | none => false

/-- JSON rendering of a `content` value, as `JSON.stringify(task.content)`:
object keys appear in insertion order `type`, `text`. -/
def jsonStringifyContent : TaskContent → String
  | .str s => jsonQuote s
  | .parts l =>
    "[" ++ String.intercalate ","
      (l.map (fun p =>
        "\x7b\"type\":" ++ jsonQuote p.type ++ ",\"text\":" ++ jsonQuote p.text ++ "\x7d"))
      ++ "]"

/-- JSON rendering of a `context` object field. -/
def jsonStringifyCtxObj (kvs : List (String × String)) : String :=
  "\x7b" ++ String.intercalate ","
    (kvs.map (fun kv => jsonQuote kv.1 ++ ":" ++ jsonQuote kv.2)) ++ "\x7d"

/-- JSON rendering of a whole task, as the `JSON.stringify(task)` fallback of
both extraction functions: present fields in declaration order, absent
(`undefined`) fields omitted. -/
def jsonStringifyTask : Task → String
  | .str s => jsonQuote s
  | .obj o =>
    let fields : List (Option String) :=
      [ o.content.map (fun c => "\"content\":" ++ jsonStringifyContent c),
        o.prompt.map (fun s => "\"prompt\":" ++ jsonQuote s),
        o.text.map (fun s => "\"text\":" ++ jsonQuote s),
        o.query.map (fun s => "\"query\":" ++ jsonQuote s),
        o.context.map (fun kvs => "\"context\":" ++ jsonStringifyCtxObj kvs),
        (if o.references then some "\"references\":true" else none),
        (if o.history then some "\"history\":true" else none),
        o.action.map (fun s => "\"action\":" ++ jsonQuote s),
        o.id.map (fun s => "\"id\":" ++ jsonQuote s),
        o.title.map (fun s => "\"title\":" ++ jsonQuote s),
        o.complexity.map (fun n => "\"complexity\":" ++ toString n) ]
    "\x7b" ++ String.intercalate "," (fields.filterMap id) ++ "\x7d"

/-! ### Text extraction (ComplexityScorer.extractTextContent and
ReasoningAnalyzer._extractTaskText) -/

/-- `ComplexityScorer.extractTextContent`: a plain string is returned as is; a
truthy string `content` is returned; an array `content` is filtered to its
`type === "text"` parts whose texts are joined with newlines; otherwise the
whole task is JSON-stringified. -/
def extractTextContent : Task → String
  | .str s => s
  | .obj o =>
    match o.content with
    | some (.str s) => if s = "" then jsonStringifyTask (.obj o) else s
    | some (.parts l) =>
      String.intercalate "\n" ((l.filter (fun p => p.type == "text")).map (fun p => p.text))
    | none => jsonStringifyTask (.obj o)

/-- The tail of `_extractTaskText` after the `prompt` and `content` checks
failed: `text`, then `query`, then `JSON.stringify(task)`. -/
def extractTaskTextFallback (o : TaskObj) : String :=
  if optTruthy o.text then o.text.getD ""
  else if optTruthy o.query then o.query.getD ""
  else jsonStringifyTask (.obj o)

/-- `ReasoningAnalyzer._extractTaskText`: a plain string is returned as is;
then a truthy `prompt` wins; then a truthy `content` is returned when it is a
string and JSON-stringified when it is not; then `text`, `query`, and finally
the JSON of the whole task. -/
def extractTaskText : Task → String
  | .str s => s
  | .obj o =>
    if optTruthy o.prompt then o.prompt.getD ""
    else
      match o.content with
      | some (.str s) => if s = "" then extractTaskTextFallback o else s
      | some (.parts l) => jsonStringifyContent (.parts l)
      | none => extractTaskTextFallback o

/-! ### Regex scanners of the complexity scorer

Each scanner reproduces the left-to-right, non-overlapping global matching of
the corresponding JS regex: the engine attempts a match at the current index,
advances past the match on success and by one character on failure.  A fuel
argument (always called with `length + 1`) makes the recursion structural. -/

/-- The three-backtick fence of `/```[\s\S]*?```/g`. -/
def fence : List Char := ['`', '`', '`']

/-- Find the lazy (`*?`) closing fence: the first occurrence of ```` ``` ````
in `l`; returns the match built so far extended to the close, and the rest of
the input after the close. -/
def findFenceClose (fuel : Nat) (acc : List Char) (l : List Char) :
    Option (List Char × List Char) :=
  match fuel with
  | 0 => none
  | fuel + 1 =>
    if fence.isPrefixOf l then some (acc ++ fence, l.drop 3)
    else
      match l with
      | [] => none
      | c :: t => findFenceClose fuel (acc ++ [c]) t

/-- All matches of `/```[\s\S]*?```/g`. -/
def scanFenced (fuel : Nat) (l : List Char) : List (List Char) :=
  match fuel with
  | 0 => []
  | fuel + 1 =>
    if fence.isPrefixOf l then
      match findFenceClose (l.length + 1) fence (l.drop 3) with
      | some (m, rest) => m :: scanFenced fuel rest
      | none =>
        match l with
        | [] => []
        | _ :: t => scanFenced fuel t
    else
      match l with
      | [] => []
      | _ :: t => scanFenced fuel t

/-- All matches of the inline-code regex `` /`[^`]+`/g ``: a backtick, at
least one non-backtick character, a closing backtick. -/
def scanInline (fuel : Nat) (l : List Char) : List (List Char) :=
  match fuel with
  | 0 => []
  | fuel + 1 =>
    match l with
    | [] => []
    | c :: t =>
      if c = '`' then
        let inner := t.takeWhile (fun d => d != '`')
        if inner.length > 0 then
          match t.drop inner.length with
          | '`' :: t2 => ('`' :: (inner ++ ['`'])) :: scanInline fuel t2
          | _ => scanInline fuel t
        else scanInline fuel t
      else scanInline fuel t

/-- Count the `\bterm\b` matches of one technical term (global flag: after a
match the scan resumes at its end).  `prev` is the character preceding the
current position, used for the left word boundary. -/
def countTermFrom (fuel : Nat) (term : List Char) (prev : Option Char) (l : List Char) : Nat :=
  match fuel with
  | 0 => 0
  | fuel + 1 =>
    let leftOk := match prev with
      | none => true
      | some p => !isWordChar p
    if term.isPrefixOf l && leftOk &&
        (match l.drop term.length with
         | [] => true
         | d :: _ => !isWordChar d) then
      1 + countTermFrom fuel term term.getLast? (l.drop term.length)
    else
      match l with
      | [] => 0
      | c :: t => countTermFrom fuel term (some c) t

/-- Count all word-boundary occurrences of `term` in `l`. -/
def countTerm (term : List Char) (l : List Char) : Nat :=
  countTermFrom (l.length + 1) term none l

/-- Count the matches of the list-item regex `/^[\s]*[-*+][\s]/gm`:
at a line start, a (possibly newline-crossing, since `\s` includes `\n`)
whitespace run, a bullet character, one whitespace character. -/
def scanListItems (fuel : Nat) (atLineStart : Bool) (l : List Char) : Nat :=
  match fuel with
  | 0 => 0
  | fuel + 1 =>
    match l with
    | [] => 0
    | c :: t =>
      let tryMatch : Option (Char × List Char) :=
        if atLineStart then
          let ws := (c :: t).takeWhile isJsWhitespace
          match (c :: t).drop ws.length with
          | b :: s2 :: t3 =>
            if (b = '-' || b = '*' || b = '+') && isJsWhitespace s2 then
              some (s2, t3)
            else none
          | _ => none
        else none
      match tryMatch with
      | some (s2, t3) => 1 + scanListItems fuel (s2 = '\n') t3
      | none => scanListItems fuel (c = '\n') t

/-- Count the matches of the heading regex `/^#{1,6}\s/gm`: at a line start,
one to six hash marks followed by a whitespace character (a run of more than
six hashes cannot match, since backtracking only ever faces another hash). -/
def scanHeadings (fuel : Nat) (atLineStart : Bool) (l : List Char) : Nat :=
  match fuel with
  | 0 => 0
  | fuel + 1 =>
    match l with
    | [] => 0
    | c :: t =>
      let tryMatch : Option (Char × List Char) :=
        if atLineStart then
          let hashes := (c :: t).takeWhile (fun d => d = '#')
          if 1 ≤ hashes.length && hashes.length ≤ 6 then
            match (c :: t).drop hashes.length with
            | s2 :: t3 => if isJsWhitespace s2 then some (s2, t3) else none
            | [] => none
          else none
        else none
      match tryMatch with
      | some (s2, t3) => 1 + scanHeadings fuel (s2 = '\n') t3
      | none => scanHeadings fuel (c = '\n') t

/-- Count the matches of the table regex `/\|[^|]+\|/g`: a pipe, at least one
non-pipe character, a closing pipe; the scan resumes after the closing pipe. -/
def scanPipes (fuel : Nat) (l : List Char) : Nat :=
  match fuel with
  | 0 => 0
  | fuel + 1 =>
    match l with
    | [] => 0
    | c :: t =>
      if c = '|' then
        let inner := t.takeWhile (fun d => d != '|')
        if inner.length > 0 then
          match t.drop inner.length with
          | '|' :: t2 => 1 + scanPipes fuel t2
          | _ => scanPipes fuel t
        else scanPipes fuel t
      else scanPipes fuel t

/-! ### JS division with NaN, for the code-content ratio -/

/-- The value space of the JS division `codeLength / text.length`: a finite
rational, `NaN` (from `0/0`) or `Infinity` (from `x/0`, `x > 0`; the dividend
is a character count, hence never negative). -/
inductive JSNum where
  | num (q : Rat)
  | nan
  | inf
deriving DecidableEq, Repr

/-- JS division of two non-negative quantities. -/
def jsDiv (a b : Rat) : JSNum :=
  if b = 0 then (if a = 0 then .nan else .inf) else .num (a / b)

/-- The JS comparison `x < c` for a division result: any comparison with
`NaN` is false, and `Infinity < c` is false for the finite breakpoints. -/
def jsLtQ : JSNum → Rat → Bool
  | .num q, c => decide (q < c)
  | .nan, _ => false
  | .inf, _ => false

/-! ### ComplexityScorer sub-scores -/

/-- The fixed list of technical terms of the scorer. -/
def technicalTerms : List String :=
  ["algorithm", "architecture", "asynchronous", "authentication", "authorization",
   "concurrency", "database", "encryption", "framework", "infrastructure",
   "integration", "microservice", "optimization", "parallelism", "performance",
   "refactoring", "scalability", "security", "synchronization", "transaction"]

/-- `ComplexityScorer.scoreLengthComplexity`. -/
def scoreLengthComplexity (text : String) : Nat :=
  let length := text.data.length
  if length < 100 then 10
  else if length < 500 then 30
  else if length < 1000 then 50
  else if length < 3000 then 70
  else 90

/-- The code ratio computed inside `scoreCodeContent`: total length of fenced
and inline code matches divided by the text length (JS division, so `0/0` for
an empty text is `NaN`). -/
def codeRatioOf (text : String) : JSNum :=
  let l := text.data
  let codeBlockMatches := scanFenced (l.length + 1) l
  let codeBlockLength : Nat := (codeBlockMatches.map List.length).foldl (· + ·) 0
  let inlineCodeMatches := scanInline (l.length + 1) l
  let inlineCodeLength : Nat := (inlineCodeMatches.map List.length).foldl (· + ·) 0
  jsDiv ((codeBlockLength : Rat) + (inlineCodeLength : Rat)) (l.length : Rat)

/-- `ComplexityScorer.scoreCodeContent`: bucket the code ratio against the
breakpoint ladder; every comparison against `NaN` is false, so an empty text
falls through to the last bucket. -/
def scoreCodeContent (text : String) : Nat :=
  let codeRatio := codeRatioOf text
  if jsLtQ codeRatio (0.1 : Rat) then 20
  else if jsLtQ codeRatio (0.3 : Rat) then 40
  else if jsLtQ codeRatio (0.5 : Rat) then 60
  else if jsLtQ codeRatio (0.7 : Rat) then 80
  else 95

/-- `ComplexityScorer.scoreTechnicalTerms`: total word-boundary occurrence
count of the fixed term list in the lower-cased text, bucketed. -/
def scoreTechnicalTerms (text : String) : Nat :=
  let lowerText := strToLower text
  let termCount := technicalTerms.foldl (fun n term => n + countTerm term.data lowerText.data) 0
  if termCount = 0 then 10
  else if termCount < 3 then 30
  else if termCount < 6 then 50
  else if termCount < 10 then 70
  else 90

/-- `ComplexityScorer.scoreStructuralComplexity`: list items + headings +
approximate table rows (pipe matches / 3), bucketed; the sum is rational
because of the division by three. -/
def scoreStructuralComplexity (text : String) : Nat :=
  let l := text.data
  let listItems := scanListItems (l.length + 1) true l
  let headings := scanHeadings (l.length + 1) true l
  let tables : Rat := (scanPipes (l.length + 1) l : Rat) / 3
  let structuralElements : Rat := (listItems : Rat) + (headings : Rat) + tables
  if structuralElements < 3 then 20
  else if structuralElements < 10 then 40
  else if structuralElements < 20 then 60
  else if structuralElements < 30 then 80
  else 95

/-- `ComplexityScorer.scoreContextDependency`: 20 without any of the
`context`/`references`/`history` fields; with a `context` object, bucket its
key count; 50 when only `references`/`history` indicate context. -/
def scoreContextDependency : Task → Nat
  | .str _ => 20
  | .obj o =>
    let hasContext := o.context.isSome || o.references || o.history
    if !hasContext then 20
    else
      match o.context with
      | some ctx =>
        let contextKeys := ctx.length
        if contextKeys < 2 then 30
        else if contextKeys < 5 then 50
        else if contextKeys < 10 then 70
        else 90
      | none => 50

/-! ### ComplexityScorer.scoreTask -/

/-- The weight table of the scorer (field `structural` models the JS key
`structure`, which is a reserved word in Lean). -/
structure Weights where
  length : Rat
  codeContent : Rat
  technicalTerms : Rat
  structuralComplexity : Rat
  contextDependency : Rat
deriving DecidableEq, Repr

/-- `this.weights` of the scorer. -/
def scorerWeights : Weights := ⟨0.3, 0.25, 0.2, 0.15, 0.1⟩

/-- The `breakdown.components` record of a score result. -/
structure ScoreComponents where
  length : Nat
  code : Nat
  terms : Nat
  structural : Nat
  context : Nat
deriving DecidableEq, Repr

/-- The `breakdown` record of a score result. -/
structure ScoreBreakdown where
  components : ScoreComponents
  weights : Weights
deriving DecidableEq, Repr

/-- The result of `scoreTask`. -/
structure ComplexityScore where
  score : Int
  breakdown : ScoreBreakdown
deriving DecidableEq, Repr

/-- `Math.round`: round half toward positive infinity. -/
def jsRound (q : Rat) : Int := ⌊q + (1 / 2 : Rat)⌋

/-- `ComplexityScorer.scoreTask`: extract the text, compute the five
sub-scores, take the weighted sum, round, and cap at 100 (the source applies
`Math.min(·, 100)` only — there is no lower cap in the code). -/
def scoreTask (task : Task) : ComplexityScore :=
  let text := extractTextContent task
  let lengthScore := scoreLengthComplexity text
  let codeScore := scoreCodeContent text
  let termsScore := scoreTechnicalTerms text
  let structuralScore := scoreStructuralComplexity text
  let contextScore := scoreContextDependency task
  let weightedScore : Rat :=
    (lengthScore : Rat) * scorerWeights.length +
    (codeScore : Rat) * scorerWeights.codeContent +
    (termsScore : Rat) * scorerWeights.technicalTerms +
    (structuralScore : Rat) * scorerWeights.structuralComplexity +
    (contextScore : Rat) * scorerWeights.contextDependency
  let score : Int := min (jsRound weightedScore) 100
  ⟨score, ⟨⟨lengthScore, codeScore, termsScore, structuralScore, contextScore⟩, scorerWeights⟩⟩

/-! ### ReasoningAnalyzer -/

/-- The keyword table of `this.typeKeywords`, in declaration order. -/
def typeKeywordTable : List (String × List String) :=
  [ ("deductive", ["if-then", "therefore", "must be", "necessarily", "deduce"]),
    ("inductive", ["pattern", "trend", "likely", "probably", "infer", "generalize"]),
    ("abductive", ["best explanation", "diagnose", "most likely cause", "hypothesis"]),
    ("analogical", ["similar to", "like", "analogy", "comparison", "resembles"]),
    ("causal", ["because", "cause", "effect", "impact", "leads to", "results in"]),
    ("counterfactual", ["if only", "what if", "had", "would have", "could have"]),
    ("temporal", ["before", "after", "during", "when", "timeline", "sequence"]),
    ("spatial", ["above", "below", "next to", "arrangement", "layout"]),
    ("mathematical", ["calculate", "compute", "solve", "equation", "formula"]),
    ("logical", ["valid", "invalid", "fallacy", "argument", "premise", "conclusion"]),
    ("ethical", ["right", "wrong", "moral", "ethical", "should", "ought"]) ]

/-- The `this.stepwiseIndicators` list. -/
def stepwiseIndicators : List String :=
  ["step by step", "explain your reasoning", "show your work", "break down",
   "walk through", "reasoning process", "chain of thought", "think through"]

/-- The mathematical keyword list, as `typeKeywords[MATHEMATICAL]`. -/
def mathematicalKeywords : List String :=
  ["calculate", "compute", "solve", "equation", "formula"]

/-- The logical keyword list, as `typeKeywords[LOGICAL]`. -/
def logicalKeywords : List String :=
  ["valid", "invalid", "fallacy", "argument", "premise", "conclusion"]

/-- Keyword-presence score of one category: one point per keyword that occurs
as a substring of the lower-cased text (`textLower.includes(keyword)`). -/
def keywordScore (textLower : String) (keywords : List String) : Nat :=
  keywords.foldl (fun score keyword => score + (if strIncludes textLower keyword then 1 else 0)) 0

/-- `ReasoningAnalyzer._requiresStepwiseReasoning`: an explicit stepwise
indicator, or a combined mathematical+logical keyword score of at least 2. -/
def requiresStepwiseReasoning (text : String) : Bool :=
  let textLower := strToLower text
  stepwiseIndicators.any (fun indicator => strIncludes textLower indicator) ||
    decide (2 ≤ keywordScore textLower (mathematicalKeywords ++ logicalKeywords))

/-- The `primaryType` of `ReasoningAnalyzer._analyzeReasoningType`: the first
declared category with the maximal strictly-positive keyword score (the
source sorts the score table descending with a stable sort, filters the zero
scores away and takes the head, defaulting to `"none"`). -/
def primaryReasoningType (text : String) : String :=
  let textLower := strToLower text
  let scores := typeKeywordTable.map (fun p => (p.1, keywordScore textLower p.2))
  let best := scores.foldl
    (fun acc p =>
      match acc with
      | none => if 0 < p.2 then some p else none
      | some q => if q.2 < p.2 then some p else some q)
    none
  match best with
  | some p => p.1
  | none => "none"

/-! ### TaskAnalyzer.analyzeTask

Only the fields of the analysis record consumed by the router and the metrics
logger are carried (`complexity`, `requiresStepwise`, `reasoningType`); the
advisory fields (`complexityBreakdown`, `modelRequirements`, confidence and
secondary types) are not consulted by any routing or logging decision. -/

/-- The slice of `TaskAnalyzer.analyzeTask`'s result that routing reads. -/
structure Analysis where
  complexity : Int
  requiresStepwise : Bool
  reasoningType : String
deriving DecidableEq, Repr

/-- `TaskAnalyzer.analyzeTask`: complexity from the scorer, stepwise flag and
reasoning type from the analyzer (which extracts the text with its own
`_extractTaskText`). -/
def analyzeTask (task : Task) : Analysis :=
  ⟨(scoreTask task).score,
   requiresStepwiseReasoning (extractTaskText task),
   primaryReasoningType (extractTaskText task)⟩

/-! ### Threshold table and dynamic adjustment -/

/-- The mutable threshold table `{simple, medium, complex}`. -/
structure Thresholds where
  simple : Int
  medium : Int
  complex : Int
deriving DecidableEq, Repr

/-- The default base table of the orchestration service. -/
def defaultThresholds : Thresholds := ⟨30, 60, 85⟩

/-- The call context fields the orchestration core reads.  The
`requiresReasoning` hint is carried because callers supply it, but no code
path of the orchestrator or router ever reads it. -/
structure Ctx where
  priority : Option String
  requiresReasoning : Option Bool
deriving DecidableEq, Repr

/-- `AIOrchestrationService.getDynamicThresholds`: lower `simple` by 10 for
high priority, raise `medium` by 15 for low priority, never touch `complex`;
a fresh record is returned and the base table is not written. -/
def getDynamicThresholds (base : Thresholds) (context : Ctx) : Thresholds :=
  ⟨if context.priority = some "high" then base.simple - 10 else base.simple,
   if context.priority = some "low" then base.medium + 15 else base.medium,
   base.complex⟩

/-- A partial threshold update, as the argument object of
`updateThresholds` (absent fields are `none`). -/
structure ThresholdsUpdate where
  simple : Option Int
  medium : Option Int
  complex : Option Int
deriving DecidableEq, Repr

/-- `AIOrchestrationService.updateThresholds`: the JS object spread
`{...this.thresholds, ...newThresholds}` — a shallow merge where each field
present in the update wins and each omitted field keeps its prior value. -/
def updateThresholds (t : Thresholds) (u : ThresholdsUpdate) : Thresholds :=
  ⟨u.simple.getD t.simple, u.medium.getD t.medium, u.complex.getD t.complex⟩

/-! ### TaskRouter -/

/-- The five provider invocations the router can make. -/
inductive ProviderCall where
  | geminiSimple
  | geminiPro
  | claudeSonnet
  | claudeOpus
  | deepseekReason
deriving DecidableEq, Repr

/-- The `{result, model}` record a routing function returns. -/
structure RoutingResult (α : Type) where
  result : α
  model : String
deriving DecidableEq, Repr

/-- `TaskRouter.routeByComplexity`, for a provider oracle `h` fixing the
outcome of each provider on the current task and context: the threshold
ladder picks the tier, the provider is invoked (recorded in the trace), and a
provider error propagates. -/
def routeByComplexity {ε α : Type} (h : ProviderCall → Except ε α)
    (complexity : Int) (t : Thresholds) :
    Except ε (RoutingResult α) × List ProviderCall :=
  if complexity ≤ t.simple then
    ((h .geminiSimple).map (fun r => ⟨r, "gemini-flash"⟩), [.geminiSimple])
  else if complexity ≤ t.medium then
    ((h .geminiPro).map (fun r => ⟨r, "gemini-pro"⟩), [.geminiPro])
  else if complexity ≤ t.complex then
    ((h .claudeSonnet).map (fun r => ⟨r, "claude-sonnet"⟩), [.claudeSonnet])
  else
    ((h .claudeOpus).map (fun r => ⟨r, "claude-opus"⟩), [.claudeOpus])

/-- `TaskRouter.routeTask`: the stepwise flag overrides everything and routes
to the reasoning specialist with tier label `deepseek-r1`; otherwise route by
complexity. -/
def routeTask {ε α : Type} (h : ProviderCall → Except ε α)
    (analysis : Analysis) (t : Thresholds) :
    Except ε (RoutingResult α) × List ProviderCall :=
  if analysis.requiresStepwise then
    ((h .deepseekReason).map (fun r => ⟨r, "deepseek-r1"⟩), [.deepseekReason])
  else
    routeByComplexity h analysis.complexity t

/-- `TaskRouter.routeWithFallback`: on any error of the primary dispatch,
invoke the cheapest tier (`gemini.processSimpleTask`) once with the same task
and context; its outcome — success or error — is final. -/
def routeWithFallback {ε α : Type} (h : ProviderCall → Except ε α)
    (analysis : Analysis) (t : Thresholds) :
    Except ε (RoutingResult α) × List ProviderCall :=
  match routeTask h analysis t with
  | (.ok r, trace) => (.ok r, trace)
  | (.error _, trace) =>
    ((h .geminiSimple).map (fun r => ⟨r, "gemini-flash-fallback"⟩), trace ++ [.geminiSimple])

/-! ### AIOrchestrationService.processTask -/

/-- The `task.action` field (a plain string task has no fields). -/
def taskAction : Task → Option String
  | .str _ => none
  | .obj o => o.action

/-- `task.id || 'unknown'` of the metrics record. -/
def taskIdOf : Task → String
  | .str _ => "unknown"
  | .obj o => if optTruthy o.id then o.id.getD "" else "unknown"

/-- The `task.complexity` field as the metrics logger reads it (absent on a
plain string task). -/
def complexityField : Task → Option Int
  | .str _ => none
  | .obj o => o.complexity

/-- The aliasing write `task.complexity = analysis.complexity` of
`processTask`.  On a plain string task the sloppy-mode property assignment is
a silent no-op. -/
def stampComplexity (task : Task) (c : Int) : Task :=
  match task with
  | .str s => .str s
  | .obj o =>
    .obj ⟨o.content, o.prompt, o.text, o.query, o.context, o.references,
          o.history, o.action, o.id, o.title, some c⟩

/-- The `!task.title || !task.content` validation of
`_handleDocumentCreation`. -/
def docFieldsPresent : Task → Bool
  | .str _ => false
  | .obj o => optTruthy o.title && contentTruthy o.content

/-- One metrics record `{taskId, duration, model, complexity, reasoningType}`
handed to `logTaskMetrics`. -/
structure MetricsRecord where
  taskId : String
  duration : Nat
  model : Option String
  complexity : Option Int
  reasoningType : String
deriving DecidableEq, Repr

/-- The error surfaced by `processTask` — every underlying failure passes
through `_handleOrchestrationError`, which wraps it in an enriched error; the
constructor records which underlying failure was wrapped. -/
inductive OrchErr (ε : Type) where
  | provider (e : ε)
  | docFieldsMissing
  | docService (e : ε)
deriving Repr

/-- `AIOrchestrationService.processTask`, with the wall clock abstracted as
the observed `duration` and the external collaborators abstracted as the
provider oracle `h` and the document-service outcome `docResult`.

The `finally` block of the source runs on every path — including the
`create_document` short-circuit and every failure path — so each execution
produces exactly the returned list of metrics records, emitted before the
result or wrapped error reaches the caller. -/
def processTask {ε α : Type} (h : ProviderCall → Except ε α)
    (docResult : Except ε α) (task : Task) (context : Ctx)
    (base : Thresholds) (duration : Nat) :
    Except (OrchErr ε) α × List MetricsRecord :=
  if taskAction task = some "create_document" then
    let res : Except (OrchErr ε) α :=
      if docFieldsPresent task then
        match docResult with
        | .ok a => .ok a
        | .error e => .error (.docService e)
      else .error .docFieldsMissing
    (res, [⟨taskIdOf task, duration, none, complexityField task, "unknown"⟩])
  else
    let analysis := analyzeTask task
    let task' := stampComplexity task analysis.complexity
    let thresholds := getDynamicThresholds base context
    match routeWithFallback h analysis thresholds with
    | (.ok r, _) =>
      (.ok r.result,
       [⟨taskIdOf task', duration, some r.model, complexityField task', analysis.reasoningType⟩])
    | (.error e, _) =>
      (.error (.provider e),
       [⟨taskIdOf task', duration, none, complexityField task', analysis.reasoningType⟩])

/-! ### Auxiliary definitions used by the statements below -/

/-- A task object whose only present field is a string `content`. -/
def contentOnlyTask (s : String) : Task :=
  .obj ⟨some (.str s), none, none, none, none, false, false, none, none, none, none⟩

/-- A task whose `content` is an array with a single text part. -/
def partsTask : Task :=
  .obj ⟨some (.parts [⟨"text", "hi"⟩]), none, none, none, none, false, false, none, none, none, none⟩

/-- The task of the repository's own orchestrator test
`should route reasoning task to DeepSeek`. -/
def reasoningTestTask : Task :=
  .obj ⟨some (.str "This task requires reasoning"), none, none, none, none, false, false,
        none, none, none, none⟩

/-- The weighted sum the scorer computes from its five sub-scores. -/
def weightedSumOf (c : ScoreComponents) : Rat :=
  (c.length : Rat) * scorerWeights.length +
  (c.code : Rat) * scorerWeights.codeContent +
  (c.terms : Rat) * scorerWeights.technicalTerms +
  (c.structural : Rat) * scorerWeights.structuralComplexity +
  (c.context : Rat) * scorerWeights.contextDependency

/-! ## Theorems -/

/-- Shared lemma: the score returned by `scoreTask` is the rounded weighted
sum capped at 100, it is never negative (every sub-score is a natural
number), and hence it coincides with the clamp of the rounded weighted sum
into `[0, 100]`. -/
theorem scoreTask_score_spec (task : Task) :
    (scoreTask task).score =
      max 0 (min (jsRound (weightedSumOf (scoreTask task).breakdown.components)) 100) ∧
    0 ≤ (scoreTask task).score ∧ (scoreTask task).score ≤ 100 := by
  have hscore : (scoreTask task).score =
      min (jsRound (weightedSumOf (scoreTask task).breakdown.components)) 100 := rfl
  have hws : (0 : Rat) ≤ weightedSumOf (scoreTask task).breakdown.components := by
    unfold weightedSumOf scorerWeights
    positivity
  have hr : (0 : Int) ≤ jsRound (weightedSumOf (scoreTask task).breakdown.components) := by
    unfold jsRound
    refine Int.le_floor.mpr ?_
    push_cast
    linarith
  refine ⟨?_, ?_, ?_⟩
  · rw [hscore]
    exact (max_eq_right (le_min hr (by norm_num))).symm
  · rw [hscore]
    exact le_min hr (by norm_num)
  · rw [hscore]
    exact min_le_right _ _

/-- C1 (amended): the two text-extraction functions agree on plain-string
tasks and on object tasks whose only present field is a string `content`
(for an empty content string both fall back to the same JSON rendering of the
whole task); they are not extensionally equal in general — see the
counterexample on array-of-parts content. -/
theorem extract_eq_on_string_shapes (s : String) :
    extractTextContent (Task.str s) = extractTaskText (Task.str s) ∧
    extractTextContent (contentOnlyTask s) = extractTaskText (contentOnlyTask s) := by
  refine ⟨rfl, ?_⟩
  by_cases h : s = "" <;>
    simp [contentOnlyTask, extractTextContent, extractTaskText, extractTaskTextFallback,
      optTruthy, h]

/-- C1 (counterexample): on the task `{content: [{type: "text", text: "hi"}]}`
the scorer's extraction yields the joined text `"hi"` while the analyzer's
extraction yields the JSON of the array — the two functions differ. -/
theorem extract_parts_counterexample :
    extractTextContent partsTask ≠ extractTaskText partsTask := by decide

/-- C2: whenever the analysis carries `requiresStepwise = true`, `routeTask`
invokes only the reasoning-specialist provider and labels the result with the
tier `deepseek-r1`, for every complexity value and every threshold table. -/
theorem routeTask_stepwise_override {ε α : Type} (h : ProviderCall → Except ε α)
    (analysis : Analysis) (t : Thresholds)
    (hs : analysis.requiresStepwise = true) :
    (routeTask h analysis t).2 = [ProviderCall.deepseekReason] ∧
    (routeTask h analysis t).1 =
      (h .deepseekReason).map (fun r => ⟨r, "deepseek-r1"⟩) := by
  unfold routeTask
  rw [hs]
  exact ⟨rfl, rfl⟩

/-- C2 (witness): with complexity 0 and the default thresholds the stepwise
override still routes to the reasoning provider. -/
theorem routeTask_stepwise_override_witness :
    (routeTask (fun _ => Except.ok 0 : ProviderCall → Except Unit Nat)
        ⟨0, true, "none"⟩ defaultThresholds).2 = [ProviderCall.deepseekReason] ∧
    (routeTask (fun _ => Except.ok 0 : ProviderCall → Except Unit Nat)
        ⟨0, true, "none"⟩ defaultThresholds).1 = Except.ok ⟨0, "deepseek-r1"⟩ := by
  have h := routeTask_stepwise_override
    (fun _ => Except.ok 0 : ProviderCall → Except Unit Nat)
    ⟨0, true, "none"⟩ defaultThresholds rfl
  exact ⟨h.1, by rw [h.2]; rfl⟩

/-- C6: the dynamic threshold derivation lowers `simple` by exactly 10 for
high priority and otherwise keeps it, raises `medium` by exactly 15 for low
priority and otherwise keeps it, never changes `complex`, and depends on the
context only through its `priority` field (the base table, a value, is not
mutated). -/
theorem getDynamicThresholds_spec (base : Thresholds) (c : Ctx) :
    (c.priority = some "high" → (getDynamicThresholds base c).simple = base.simple - 10) ∧
    (c.priority ≠ some "high" → (getDynamicThresholds base c).simple = base.simple) ∧
    (c.priority = some "low" → (getDynamicThresholds base c).medium = base.medium + 15) ∧
    (c.priority ≠ some "low" → (getDynamicThresholds base c).medium = base.medium) ∧
    (getDynamicThresholds base c).complex = base.complex ∧
    (∀ c2 : Ctx, c2.priority = c.priority →
      getDynamicThresholds base c2 = getDynamicThresholds base c) := by
  refine ⟨fun h => ?_, fun h => ?_, fun h => ?_, fun h => ?_, rfl, fun c2 h => ?_⟩ <;>
    simp [getDynamicThresholds, h]

/-- C6 (witness): from the default base table, high priority yields
`simple = 20` and leaves `medium`/`complex` at 60/85. -/
theorem getDynamicThresholds_spec_witness :
    (getDynamicThresholds defaultThresholds ⟨some "high", some true⟩).simple = 30 - 10 ∧
    (getDynamicThresholds defaultThresholds ⟨some "high", some true⟩).medium = 60 ∧
    (getDynamicThresholds defaultThresholds ⟨some "high", some true⟩).complex = 85 := by
  have h := getDynamicThresholds_spec defaultThresholds ⟨some "high", some true⟩
  exact ⟨h.1 rfl, h.2.2.2.1 (by decide), h.2.2.2.2.1⟩

/-- C7: `updateThresholds` is a shallow merge — each field present in the
update object takes its new value and each omitted field keeps its prior
value; in particular, starting from the default table, `{simple: 10}` yields
`{simple: 10, medium: 60, complex: 85}`. -/
theorem updateThresholds_shallow_merge (t : Thresholds) (u : ThresholdsUpdate) :
    (∀ v, u.simple = some v → (updateThresholds t u).simple = v) ∧
    (u.simple = none → (updateThresholds t u).simple = t.simple) ∧
    (∀ v, u.medium = some v → (updateThresholds t u).medium = v) ∧
    (u.medium = none → (updateThresholds t u).medium = t.medium) ∧
    (∀ v, u.complex = some v → (updateThresholds t u).complex = v) ∧
    (u.complex = none → (updateThresholds t u).complex = t.complex) ∧
    updateThresholds defaultThresholds ⟨some 10, none, none⟩ = ⟨10, 60, 85⟩ := by
  refine ⟨fun v h => ?_, fun h => ?_, fun v h => ?_, fun h => ?_, fun v h => ?_, fun h => ?_, rfl⟩ <;>
    simp [updateThresholds, h]

/-- C7 (witness): the merge applied to the default table with `{simple: 10}`
keeps `medium = 60` and sets `simple = 10`. -/
theorem updateThresholds_shallow_merge_witness :
    (updateThresholds defaultThresholds ⟨some 10, none, none⟩).simple = 10 ∧
    (updateThresholds defaultThresholds ⟨some 10, none, none⟩).medium = 60 := by
  have h := updateThresholds_shallow_merge defaultThresholds ⟨some 10, none, none⟩
  exact ⟨h.1 10 rfl, h.2.2.2.1 rfl⟩

/-- C3: for an ordered threshold table the four tier conditions cover every
score in `0..100` exactly once, and `routeByComplexity` selects precisely the
tier of the condition that holds, with its tier label. -/
theorem routeByComplexity_partition {ε α : Type} (h : ProviderCall → Except ε α)
    (score : Int) (t : Thresholds)
    (h1 : t.simple < t.medium) (h2 : t.medium < t.complex)
    (_hlo : 0 ≤ score) (_hhi : score ≤ 100) :
    (score ≤ t.simple →
      (routeByComplexity h score t).2 = [ProviderCall.geminiSimple] ∧
      (routeByComplexity h score t).1 = (h .geminiSimple).map (fun r => ⟨r, "gemini-flash"⟩)) ∧
    (t.simple < score → score ≤ t.medium →
      (routeByComplexity h score t).2 = [ProviderCall.geminiPro] ∧
      (routeByComplexity h score t).1 = (h .geminiPro).map (fun r => ⟨r, "gemini-pro"⟩)) ∧
    (t.medium < score → score ≤ t.complex →
      (routeByComplexity h score t).2 = [ProviderCall.claudeSonnet] ∧
      (routeByComplexity h score t).1 = (h .claudeSonnet).map (fun r => ⟨r, "claude-sonnet"⟩)) ∧
    (t.complex < score →
      (routeByComplexity h score t).2 = [ProviderCall.claudeOpus] ∧
      (routeByComplexity h score t).1 = (h .claudeOpus).map (fun r => ⟨r, "claude-opus"⟩)) ∧
    (score ≤ t.simple ∨ (t.simple < score ∧ score ≤ t.medium) ∨
      (t.medium < score ∧ score ≤ t.complex) ∨ t.complex < score) ∧
    ¬(score ≤ t.simple ∧ t.simple < score ∧ score ≤ t.medium) ∧
    ¬(score ≤ t.simple ∧ t.medium < score ∧ score ≤ t.complex) ∧
    ¬(score ≤ t.simple ∧ t.complex < score) ∧
    ¬((t.simple < score ∧ score ≤ t.medium) ∧ t.medium < score ∧ score ≤ t.complex) ∧
    ¬((t.simple < score ∧ score ≤ t.medium) ∧ t.complex < score) ∧
    ¬((t.medium < score ∧ score ≤ t.complex) ∧ t.complex < score) := by
  refine ⟨fun hc => ?_, fun hc hc2 => ?_, fun hc hc2 => ?_, fun hc => ?_,
    by omega, by omega, by omega, by omega, by omega, by omega, by omega⟩
  · unfold routeByComplexity
    rw [if_pos hc]
    exact ⟨rfl, rfl⟩
  · unfold routeByComplexity
    rw [if_neg (by omega), if_pos hc2]
    exact ⟨rfl, rfl⟩
  · unfold routeByComplexity
    rw [if_neg (by omega), if_neg (by omega), if_pos hc2]
    exact ⟨rfl, rfl⟩
  · unfold routeByComplexity
    rw [if_neg (by omega), if_neg (by omega), if_neg (by omega)]
    exact ⟨rfl, rfl⟩

/-- C3 (witness): with the default table a score of 45 lands in the second
tier and is routed to Gemini Pro. -/
theorem routeByComplexity_partition_witness :
    (routeByComplexity (fun _ => Except.ok 0 : ProviderCall → Except Unit Nat)
        45 defaultThresholds).2 = [ProviderCall.geminiPro] ∧
    (routeByComplexity (fun _ => Except.ok 0 : ProviderCall → Except Unit Nat)
        45 defaultThresholds).1 = Except.ok ⟨0, "gemini-pro"⟩ := by
  have h := routeByComplexity_partition
    (fun _ => Except.ok 0 : ProviderCall → Except Unit Nat)
    45 defaultThresholds (by decide) (by decide) (by decide) (by decide)
  have h2 := h.2.1 (by decide) (by decide)
  exact ⟨h2.1, by rw [h2.2]; rfl⟩

/-- Helper: the primary dispatch makes exactly one provider invocation. -/
theorem routeTask_trace_length {ε α : Type} (h : ProviderCall → Except ε α)
    (analysis : Analysis) (t : Thresholds) :
    (routeTask h analysis t).2.length = 1 := by
  unfold routeTask routeByComplexity
  split <;> first
    | rfl
    | (split <;> first | rfl | (split <;> first | rfl | (split <;> rfl)))

/-- C4: when the primary dispatch fails with any error, `routeWithFallback`
makes exactly one additional invocation, against the cheapest tier's provider
(`gemini.processSimpleTask`, with the same task/context oracle); a fallback
success is returned to the caller and a fallback error propagates with no
further invocation — the trace never exceeds two invocations. -/
theorem routeWithFallback_single_retry {ε α : Type} (h : ProviderCall → Except ε α)
    (analysis : Analysis) (t : Thresholds) (e : ε)
    (he : (routeTask h analysis t).1 = .error e) :
    (routeWithFallback h analysis t).2 =
      (routeTask h analysis t).2 ++ [ProviderCall.geminiSimple] ∧
    (∀ x, h .geminiSimple = .ok x →
      (routeWithFallback h analysis t).1 = .ok ⟨x, "gemini-flash-fallback"⟩) ∧
    (∀ e2, h .geminiSimple = .error e2 →
      (routeWithFallback h analysis t).1 = .error e2) ∧
    (∀ (h2 : ProviderCall → Except ε α) (a2 : Analysis) (t2 : Thresholds),
      (routeWithFallback h2 a2 t2).2.length ≤ 2) := by
  have hsplit : routeTask h analysis t = (Except.error e, (routeTask h analysis t).2) := by
    rw [Prod.ext_iff]
    exact ⟨he, rfl⟩
  refine ⟨?_, ?_, ?_, ?_⟩
  · unfold routeWithFallback
    rw [hsplit]
  · intro x hx
    unfold routeWithFallback
    rw [hsplit]
    simp [hx, Except.map]
  · intro e2 hx
    unfold routeWithFallback
    rw [hsplit]
    simp [hx, Except.map]
  · intro h2 a2 t2
    unfold routeWithFallback
    have hl := routeTask_trace_length h2 a2 t2
    rcases hp : routeTask h2 a2 t2 with ⟨r, trace⟩
    rw [hp] at hl
    simp only at hl
    cases r <;> simp [hl]

/-- C4 (witness): a failing Claude Opus call (score 90 exceeds the default
`complex` boundary) triggers exactly one fallback call to Gemini simple,
whose success is returned with the fallback tier label. -/
theorem routeWithFallback_single_retry_witness :
    (routeWithFallback
        (fun c => if c = ProviderCall.claudeOpus then Except.error "boom" else Except.ok 7)
        ⟨90, false, "none"⟩ defaultThresholds).2 =
      [ProviderCall.claudeOpus, ProviderCall.geminiSimple] ∧
    (routeWithFallback
        (fun c => if c = ProviderCall.claudeOpus then Except.error "boom" else Except.ok 7)
        ⟨90, false, "none"⟩ defaultThresholds).1 =
      Except.ok ⟨7, "gemini-flash-fallback"⟩ := by
  have h := routeWithFallback_single_retry
    (fun c => if c = ProviderCall.claudeOpus then Except.error "boom" else Except.ok (7 : Nat))
    ⟨90, false, "none"⟩ defaultThresholds "boom" rfl
  refine ⟨?_, h.2.1 7 rfl⟩
  rw [h.1]
  decide

/-- C5 (code bug evidence): on the task of the repository's own test
`should route reasoning task to DeepSeek` — content
`"This task requires reasoning"` with context `{requiresReasoning: true}` —
the reasoning analyzer reports `stepwise = false` (neither a stepwise
indicator nor two mathematical/logical keywords occur), so the router sends
the test's mocked complexity 70 to the `claude-sonnet` tier and never invokes
the reasoning provider: no code path reads `context.requiresReasoning`. -/
theorem contextRequiresReasoning_ignored :
    extractTaskText reasoningTestTask = "This task requires reasoning" ∧
    (analyzeTask reasoningTestTask).requiresStepwise = false ∧
    (routeTask (fun _ => Except.ok 0 : ProviderCall → Except Unit Nat)
        ⟨70, (analyzeTask reasoningTestTask).requiresStepwise,
         (analyzeTask reasoningTestTask).reasoningType⟩
        defaultThresholds).2 = [ProviderCall.claudeSonnet] ∧
    [ProviderCall.claudeSonnet] ≠ [ProviderCall.deepseekReason] := by
  refine ⟨rfl, by decide, ?_, by decide⟩
  have hs : (analyzeTask reasoningTestTask).requiresStepwise = false := by decide
  unfold routeTask routeByComplexity
  rw [hs]
  decide

/-- C8: the score of `scoreTask` equals the rounded weighted sum of its five
sub-scores clamped into `[0, 100]`, and in particular always lies in
`0..100`.  (The source only caps at 100 with `Math.min`; the lower clamp is
vacuous because every sub-score ladder starts at a positive bucket.) -/
theorem scoreTask_weighted_clamped (task : Task) :
    (scoreTask task).score =
      max 0 (min (jsRound (weightedSumOf (scoreTask task).breakdown.components)) 100) ∧
    0 ≤ (scoreTask task).score ∧ (scoreTask task).score ≤ 100 :=
  scoreTask_score_spec task

/-- C9: every `processTask` call that does not take the `create_document`
short-circuit emits exactly one metrics record
`{taskId, duration, model, complexity, reasoningType}` — on the success path
(with the selected tier label as `model`) and on every failure path (with a
null `model`, the record accompanying the wrapped error). -/
theorem processTask_metrics_once {ε α : Type} (h : ProviderCall → Except ε α)
    (docResult : Except ε α) (task : Task) (context : Ctx)
    (base : Thresholds) (duration : Nat)
    (hnd : taskAction task ≠ some "create_document") :
    ∃ m : MetricsRecord,
      (processTask h docResult task context base duration).2 = [m] ∧
      m.taskId = taskIdOf (stampComplexity task (analyzeTask task).complexity) ∧
      m.duration = duration ∧
      m.complexity = complexityField (stampComplexity task (analyzeTask task).complexity) ∧
      m.reasoningType = (analyzeTask task).reasoningType ∧
      (∀ r trace,
        routeWithFallback h (analyzeTask task) (getDynamicThresholds base context) = (.ok r, trace) →
        (processTask h docResult task context base duration).1 = .ok r.result ∧
        m.model = some r.model) ∧
      (∀ e trace,
        routeWithFallback h (analyzeTask task) (getDynamicThresholds base context) = (.error e, trace) →
        (processTask h docResult task context base duration).1 = .error (.provider e) ∧
        m.model = none) := by
  rcases hr : routeWithFallback h (analyzeTask task) (getDynamicThresholds base context)
    with ⟨res, trace⟩
  cases res with
  | ok r =>
    have hp : processTask h docResult task context base duration =
        (.ok r.result,
         [⟨taskIdOf (stampComplexity task (analyzeTask task).complexity), duration,
           some r.model, complexityField (stampComplexity task (analyzeTask task).complexity),
           (analyzeTask task).reasoningType⟩]) := by
      unfold processTask
      rw [if_neg hnd]
      simp only [hr]
    refine ⟨_, by rw [hp], rfl, rfl, rfl, rfl, fun r2 trace2 h2 => ?_, fun e2 trace2 h2 => ?_⟩
    · simp only [Prod.mk.injEq, Except.ok.injEq] at h2
      rw [h2.1] at hp ⊢
      exact ⟨by rw [hp], rfl⟩
    · simp only [Prod.mk.injEq] at h2
      exact absurd h2.1 (by simp)
  | error e =>
    have hp : processTask h docResult task context base duration =
        (.error (.provider e),
         [⟨taskIdOf (stampComplexity task (analyzeTask task).complexity), duration,
           none, complexityField (stampComplexity task (analyzeTask task).complexity),
           (analyzeTask task).reasoningType⟩]) := by
      unfold processTask
      rw [if_neg hnd]
      simp only [hr]
    refine ⟨_, by rw [hp], rfl, rfl, rfl, rfl, fun r2 trace2 h2 => ?_, fun e2 trace2 h2 => ?_⟩
    · simp only [Prod.mk.injEq] at h2
      exact absurd h2.1 (by simp)
    · simp only [Prod.mk.injEq, Except.error.injEq] at h2
      rw [h2.1] at hp
      exact ⟨by rw [hp], rfl⟩

/-- C9 (witness): a concrete non-document call emits exactly one metrics
record. -/
theorem processTask_metrics_once_witness :
    (processTask (fun _ => Except.ok 0 : ProviderCall → Except Unit Nat)
        (Except.ok 0) (Task.str "") ⟨none, none⟩ defaultThresholds 5).2.length = 1 := by
  obtain ⟨m, hm, -⟩ := processTask_metrics_once
    (fun _ => Except.ok 0 : ProviderCall → Except Unit Nat)
    (Except.ok 0) (Task.str "") ⟨none, none⟩ defaultThresholds 5 (by decide)
  rw [hm]
  rfl

/-- C10: a task whose extracted text is empty makes `scoreCodeContent`
compute the code ratio `0/0 = NaN`; every breakpoint comparison against `NaN`
is false, so the code sub-score is the maximal bucket 95 rather than the
minimal one, and `scoreTask` still returns a score in `0..100`. -/
theorem scoreCodeContent_empty_text_nan (task : Task)
    (htext : extractTextContent task = "") :
    codeRatioOf "" = JSNum.nan ∧
    jsLtQ JSNum.nan (0.1 : Rat) = false ∧
    jsLtQ JSNum.nan (0.3 : Rat) = false ∧
    jsLtQ JSNum.nan (0.5 : Rat) = false ∧
    jsLtQ JSNum.nan (0.7 : Rat) = false ∧
    scoreCodeContent "" = 95 ∧
    (scoreTask task).breakdown.components.code = 95 ∧
    0 ≤ (scoreTask task).score ∧ (scoreTask task).score ≤ 100 := by
  have hcode : (scoreTask task).breakdown.components.code =
      scoreCodeContent (extractTextContent task) := rfl
  refine ⟨by with_unfolding_all rfl, rfl, rfl, rfl, rfl, by with_unfolding_all rfl, ?_,
    (scoreTask_score_spec task).2⟩
  rw [hcode, htext]
  with_unfolding_all rfl

/-- C10 (witness): the empty-string task has empty extracted text, `NaN`
code ratio and code sub-score 95. -/
theorem scoreCodeContent_empty_text_nan_witness :
    codeRatioOf "" = JSNum.nan ∧
    scoreCodeContent "" = 95 ∧
    (scoreTask (Task.str "")).breakdown.components.code = 95 := by
  have h := scoreCodeContent_empty_text_nan (Task.str "") rfl
  exact ⟨h.1, h.2.2.2.2.2.1, h.2.2.2.2.2.2.1⟩

end ProjectCrew




